import Mathlib

/-!
Verification of the job-orchestration core of SIRAH-Tools-GUI.

The definitions below are a shallow embedding of `src/modules/analysis_tab.py`,
`src/modules/contacts_tab.py` and `src/modules/backmapping_tab.py`: GUI widget
reads become plain record fields, filesystem queries become an explicit
`String → Bool` oracle, and the side-effecting worker functions become pure
functions returning a trace of the effects they would perform, in order.
-/

namespace SirahTools

/-- The seven analysis checkbuttons of the Analysis tab
(`state.rmsd_var` … `state.contact_surface_var`). -/
structure AnalysisFlags where
  rmsd : Bool
  rmsf : Bool
  rgyr : Bool
  sasa : Bool
  nativec : Bool
  rdf : Bool
  contact_surface : Bool
deriving DecidableEq, Repr

/-- `analysis_code` accumulation from `analyze` (analysis_tab.py lines 691-705):
each checked analysis adds its power-of-two code. -/
def analysis_code (f : AnalysisFlags) : Nat :=
  (if f.rmsd then 1 else 0) + (if f.rmsf then 2 else 0) + (if f.rgyr then 4 else 0) +
    (if f.sasa then 8 else 0) + (if f.nativec then 16 else 0) + (if f.rdf then 32 else 0) +
    (if f.contact_surface then 64 else 0)

/-- `os.path.join` for an absolute first component and relative second component (POSIX). -/
def pathJoin (a b : String) : String := a ++ "/" ++ b

/-- `selection.replace(" ", "_")` — the filename cleaning used in the Analysis
tab (analysis_tab.py lines 686-688). For the single-character pattern this is
a character-wise substitution. -/
def clean (s : String) : String :=
  ⟨s.data.map (fun c => if c = ' ' then '_' else c)⟩

/-- The `expected_files` list built by `analyze` for the overwrite prompt
(analysis_tab.py lines 710-741), in source append order. -/
def expected_files (flags : AnalysisFlags) (report rmsf2pdbeta : Bool)
    (analysis_dir s1c s2c s3c : String) : List String :=
  (if flags.rmsd then
    [pathJoin analysis_dir ("RMSD_" ++ s1c ++ ".dat"),
     pathJoin analysis_dir ("RMSD_" ++ s1c ++ ".png")] else []) ++
  (if flags.rmsf then
    [pathJoin analysis_dir ("RMSF_" ++ s1c ++ ".dat"),
     pathJoin analysis_dir ("RMSF_" ++ s1c ++ ".png")] else []) ++
  (if flags.rgyr then
    [pathJoin analysis_dir ("RGYR_" ++ s1c ++ ".dat"),
     pathJoin analysis_dir ("RGYR_" ++ s1c ++ ".png")] else []) ++
  (if flags.sasa then
    [pathJoin analysis_dir ("SASA_" ++ s2c ++ "_" ++ s3c ++ ".dat"),
     pathJoin analysis_dir ("SASA_" ++ s2c ++ "_" ++ s3c ++ ".png")] else []) ++
  (if flags.nativec then
    [pathJoin analysis_dir ("distance_" ++ s2c ++ "_" ++ s3c ++ ".dat"),
     pathJoin analysis_dir ("Distance_" ++ s2c ++ "_" ++ s3c ++ ".png")] else []) ++
  (if flags.rdf then
    [pathJoin analysis_dir ("rdf_" ++ s2c ++ "_" ++ s3c ++ ".dat"),
     pathJoin analysis_dir ("rdf_" ++ s2c ++ "_" ++ s3c ++ "_g.png"),
     pathJoin analysis_dir ("rdf_" ++ s2c ++ "_" ++ s3c ++ "_integral.png")] else []) ++
  (if report then [pathJoin analysis_dir ("Analysis_" ++ s1c ++ ".pdf")] else []) ++
  (if rmsf2pdbeta then [pathJoin analysis_dir "RMSF_protein.pdb"] else [])

/-- The seven analysis kinds dispatched by `post_process_analysis`. -/
inductive AKind
  | rmsd | rmsf | rgyr | sasa | contact_surface | nativec | rdf
deriving DecidableEq, Repr

/-- Whether the checkbutton for a kind is set. -/
def requested (f : AnalysisFlags) : AKind → Bool
  | .rmsd => f.rmsd
  | .rmsf => f.rmsf
  | .rgyr => f.rgyr
  | .sasa => f.sasa
  | .contact_surface => f.contact_surface
  | .nativec => f.nativec
  | .rdf => f.rdf

/-- The flag record with exactly one kind checked. -/
def only_flag : AKind → AnalysisFlags
  | .rmsd => ⟨true, false, false, false, false, false, false⟩
  | .rmsf => ⟨false, true, false, false, false, false, false⟩
  | .rgyr => ⟨false, false, true, false, false, false, false⟩
  | .sasa => ⟨false, false, false, true, false, false, false⟩
  | .nativec => ⟨false, false, false, false, true, false, false⟩
  | .rdf => ⟨false, false, false, false, false, true, false⟩
  | .contact_surface => ⟨false, false, false, false, false, false, true⟩

/-- The `.dat` file each branch of `post_process_analysis` reads
(analysis_tab.py lines 874-929), relative to the analysis directory. -/
def dat_file : AKind → String → String → String → String
  | .rmsd, s1c, _, _ => "RMSD_" ++ s1c ++ ".dat"
  | .rmsf, s1c, _, _ => "RMSF_" ++ s1c ++ ".dat"
  | .rgyr, s1c, _, _ => "RGYR_" ++ s1c ++ ".dat"
  | .sasa, _, s2c, s3c => "SASA_" ++ s2c ++ "_" ++ s3c ++ ".dat"
  | .contact_surface, _, s2c, s3c => "contact_surface_" ++ s2c ++ "_" ++ s3c ++ ".dat"
  | .nativec, _, s2c, s3c => "distance_" ++ s2c ++ "_" ++ s3c ++ ".dat"
  | .rdf, _, s2c, s3c => "rdf_" ++ s2c ++ "_" ++ s3c ++ ".dat"

/-- The `.png` files each branch of `post_process_analysis` writes, in the
order its plot helper saves them (`plot_rdf` saves the g plot, then the
integral plot), relative to the analysis directory. -/
def png_files : AKind → String → String → String → List String
  | .rmsd, s1c, _, _ => ["RMSD_" ++ s1c ++ ".png"]
  | .rmsf, s1c, _, _ => ["RMSF_" ++ s1c ++ ".png"]
  | .rgyr, s1c, _, _ => ["RGYR_" ++ s1c ++ ".png"]
  | .sasa, _, s2c, s3c => ["SASA_" ++ s2c ++ "_" ++ s3c ++ ".png"]
  | .contact_surface, _, s2c, s3c => ["ContactSurface_" ++ s2c ++ "_" ++ s3c ++ ".png"]
  | .nativec, _, s2c, s3c => ["Distance_" ++ s2c ++ "_" ++ s3c ++ ".png"]
  | .rdf, _, s2c, s3c =>
    ["rdf_" ++ s2c ++ "_" ++ s3c ++ "_g.png", "rdf_" ++ s2c ++ "_" ++ s3c ++ "_integral.png"]

/-- All paths the Post-Processing Dispatcher touches for one kind: the data
file it reads followed by the images it writes. -/
def dispatch_files (k : AKind) (analysis_dir s1c s2c s3c : String) : List String :=
  pathJoin analysis_dir (dat_file k s1c s2c s3c) ::
    (png_files k s1c s2c s3c).map (pathJoin analysis_dir)

/-- The paths the Overwrite Guard tests for one kind: the `expected_files`
slice contributed by that kind alone. -/
def guard_files (k : AKind) (analysis_dir s1c s2c s3c : String) : List String :=
  expected_files (only_flag k) false false analysis_dir s1c s2c s3c

/-- The order in which `post_process_analysis` visits the kinds
(analysis_tab.py lines 874-929); `generate_pdf` visits them in the same order. -/
def dispatch_order : List AKind :=
  [.rmsd, .rmsf, .rgyr, .sasa, .contact_surface, .nativec, .rdf]

/-- One call of a plot helper (`plot_generic`, `plot_rmsf`, `plot_rdf`):
if the data file is missing it produces nothing; otherwise it saves its
images one by one inside a single try block whose except clause swallows
any rendering exception, so images saved before the failure survive.
Returns the image paths actually written. -/
def plot_images (datPresent : Bool) (renderOk : String → Bool) (imgs : List String) :
    List String :=
  if datPresent then imgs.takeWhile renderOk else []

/-- The image files written by one run of `post_process_analysis`: every
checked kind gets its plot helper called, in dispatch order; the helpers
catch their own exceptions, so one failing kind does not stop the loop. -/
def produced_images (flags : AnalysisFlags) (analysis_dir s1c s2c s3c : String)
    (datExists renderOk : String → Bool) : List String :=
  (dispatch_order.filter (fun k => requested flags k)).flatMap fun k =>
    plot_images (datExists (pathJoin analysis_dir (dat_file k s1c s2c s3c))) renderOk
      ((png_files k s1c s2c s3c).map (pathJoin analysis_dir))

/-- The pages `generate_pdf` embeds (analysis_tab.py lines 1186-1254): for each
checked kind, each of its image files that exists on disk becomes a page;
missing images are skipped silently. -/
def generate_pdf_pages (flags : AnalysisFlags) (analysis_dir s1c s2c s3c : String)
    (imgExists : String → Bool) : List String :=
  (dispatch_order.filter (fun k => requested flags k)).flatMap fun k =>
    ((png_files k s1c s2c s3c).map (pathJoin analysis_dir)).filter imgExists

/-- `post_process_analysis` (analysis_tab.py lines 857-940): run every checked
kind through its plot helper, then, if the report box is checked, assemble the
PDF from the images that exist afterwards (`pngExists0` is image existence
before the run). Returns the written images and the report pages. -/
def post_process_analysis (flags : AnalysisFlags) (report : Bool)
    (analysis_dir s1c s2c s3c : String)
    (datExists renderOk pngExists0 : String → Bool) : List String × List String :=
  let prod := produced_images flags analysis_dir s1c s2c s3c datExists renderOk
  let pages :=
    if report then
      generate_pdf_pages flags analysis_dir s1c s2c s3c
        (fun p => pngExists0 p || prod.contains p)
    else []
  (prod, pages)

/-- The validation failures `analyze` can report before launching VMD
(analysis_tab.py lines 577-683), one constructor per message. -/
inductive ValidationError
  | workingDirNotSet
  | invalidTimeStep
  | invalidStepsBetweenFrames
  | basicSelectionEmpty
  | advancedSelection2Empty
  | noAnalysesSelected
  | filesNotLoaded
deriving DecidableEq, Repr

/-- The three selection strings after the fallback rule has run. -/
structure SelTriple where
  s1 : String
  s2 : String
  s3 : String
deriving DecidableEq, Repr

/-- The selection-validation and fallback branch of `analyze`
(analysis_tab.py lines 629-676): basic-only broadcasts selection 1 to all
slots; advanced-only copies selection 2 into slot 1 and fills an empty
slot 3 from selection 2; both categories validate slots 1 and 2 and fill an
empty slot 3 from selection 2; no category checked is the final else. -/
def selection_fallback (flags : AnalysisFlags) (sel1 sel2 sel3 : String) :
    Except ValidationError SelTriple :=
  let basic := flags.rmsd || flags.rmsf || flags.rgyr
  let advanced := flags.sasa || flags.nativec || flags.rdf || flags.contact_surface
  if basic && !advanced then
    if sel1 = "" then .error .basicSelectionEmpty
    else .ok ⟨sel1, sel1, sel1⟩
  else if advanced && !basic then
    if sel2 = "" then .error .advancedSelection2Empty
    else .ok ⟨sel2, sel2, if sel3 = "" then sel2 else sel3⟩
  else if basic && advanced then
    if sel1 = "" then .error .basicSelectionEmpty
    else if sel2 = "" then .error .advancedSelection2Empty
    else .ok ⟨sel1, sel2, if sel3 = "" then sel2 else sel3⟩
  else .error .noAnalysesSelected

/-- Raw field values read by `analyze` from the GUI state. Selections are the
stripped entry contents with an active placeholder already blanked
(analysis_tab.py lines 594-607); the numeric entries carry the result of the
Python float conversion, `none` meaning the conversion raised ValueError. -/
structure RawInputs where
  working_directory : Option String
  analysisDirExists : Bool
  sel1 : String
  sel2 : String
  sel3 : String
  time_step : Option Rat
  steps_between_frames : Option Rat
  reference_file : Option String
  skip : String
  srad : String
  flags : AnalysisFlags
  report : Bool
  rmsf2pdbeta : Bool
  topology_file : Option String
  trajectory_file : Option String
  tclScriptExists : Bool

/-- The pre-spawn validation sequence of `analyze`, in source order
(analysis_tab.py lines 577-683): working directory set, time step converts,
steps between frames converts, selection chain (which also reports the
no-analyses case), topology and trajectory loaded. Neither the sign of the
numeric fields nor the skip or solvent-radius entries are checked. -/
def analyze_validate (inp : RawInputs) : Except ValidationError SelTriple :=
  if inp.working_directory.isNone then .error .workingDirNotSet
  else if inp.time_step.isNone then .error .invalidTimeStep
  else if inp.steps_between_frames.isNone then .error .invalidStepsBetweenFrames
  else
    match selection_fallback inp.flags inp.sel1 inp.sel2 inp.sel3 with
    | .error e => .error e
    | .ok sels =>
      if inp.topology_file.isNone || inp.trajectory_file.isNone then .error .filesNotLoaded
      else .ok sels

/-- Modelled from the spec (section 4.1), for comparison with
`analyze_validate`: preconditions checked in the order the spec claims —
(a) at least one analysis flag set, (b) the selections required by the
active flags non-empty, (c) the numeric parameters parse as positive
numbers, (d) the input files loaded. -/
def claimed_validate (inp : RawInputs) : Except ValidationError SelTriple :=
  if analysis_code inp.flags = 0 then .error .noAnalysesSelected
  else
    match selection_fallback inp.flags inp.sel1 inp.sel2 inp.sel3 with
    | .error e => .error e
    | .ok sels =>
      match inp.time_step with
      | none => .error .invalidTimeStep
      | some t =>
        if t ≤ 0 then .error .invalidTimeStep
        else
          match inp.steps_between_frames with
          | none => .error .invalidStepsBetweenFrames
          | some sbf =>
            if sbf ≤ 0 then .error .invalidStepsBetweenFrames
            else if inp.topology_file.isNone || inp.trajectory_file.isNone then
              .error .filesNotLoaded
            else .ok sels

/-- The externally visible actions of a worker run, in the order they would
be performed. -/
inductive Effect
  | showError (msg : String)
  | showWarning (msg : String)
  | makeDir (dir : String)
  | askOverwrite (files : List String)
  | restoreIdle
  | spawn (cmd : List String)
deriving DecidableEq, Repr

/-- Whether an effect spawns an external process. -/
def Effect.isSpawn : Effect → Bool
  | .spawn _ => true
  | _ => false

/-- Whether an effect writes to the filesystem (directory creation is the
only filesystem write `analyze` itself performs before the engine runs). -/
def Effect.writesFs : Effect → Bool
  | .makeDir _ => true
  | _ => false

/-- The message box each validation failure pops up (analysis_tab.py
lines 579-681). -/
def error_effect : ValidationError → Effect
  | .workingDirNotSet => .showError "Please set a working directory before proceeding."
  | .invalidTimeStep => .showError "Invalid value for Time Step."
  | .invalidStepsBetweenFrames => .showError "Invalid value for Steps Between Frames."
  | .basicSelectionEmpty =>
    .showError "Please enter a valid atom selection for Basic Analysis."
  | .advancedSelection2Empty =>
    .showError "Please enter a valid atom selection for Advanced Analysis (Selection 2)."
  | .noAnalysesSelected =>
    .showWarning "No analyses selected. Please select at least one analysis option."
  | .filesNotLoaded => .showError "Please load both topology and trajectory files before analysis."

/-- The directory holding the TCL scripts, derived from the installed
package location (analysis_tab.py line 771). -/
def script_dir : String := "TCL"

/-- `os.path.join(script_dir, "sirah_analysis.tcl")` (analysis_tab.py line 772). -/
def tcl_script_path : String := pathJoin script_dir "sirah_analysis.tcl"

/-- The argument vector `analyze` hands to `subprocess.Popen`
(analysis_tab.py lines 780-786), with the analysis code rendered as a
decimal string at position 11. -/
def analyze_command (inp : RawInputs) (sels : SelTriple) (code : Nat)
    (analysis_dir : String) : List String :=
  ["vmd", "-dispdev", "text", "-e", tcl_script_path, "-args",
   inp.topology_file.getD "", inp.trajectory_file.getD "",
   sels.s1, sels.s2, sels.s3, toString code,
   script_dir, analysis_dir, inp.reference_file.getD "None", inp.skip, inp.srad,
   toString (if inp.rmsf2pdbeta then (1 : Nat) else 0)]

/-- The `analyze` worker (analysis_tab.py lines 566-854) as an effect trace:
validation in source order, Analysis-directory creation when missing, the
overwrite prompt when any expected file exists (declining restores the idle
controls and stops), the TCL-script existence check, and finally the single
process spawn. `fsExists` answers `os.path.exists`; `userAccepts` is the
answer the UI thread hands back through the one-shot event. -/
def analyze (inp : RawInputs) (fsExists : String → Bool) (userAccepts : Bool) :
    List Effect :=
  match inp.working_directory with
  | none => [error_effect .workingDirNotSet]
  | some wd =>
    let analysis_dir := pathJoin wd "Analysis"
    let dirFx : List Effect := if inp.analysisDirExists then [] else [.makeDir analysis_dir]
    match analyze_validate inp with
    | .error e => dirFx ++ [error_effect e]
    | .ok sels =>
      let s1c := clean sels.s1
      let s2c := clean sels.s2
      let s3c := clean sels.s3
      let expected := expected_files inp.flags inp.report inp.rmsf2pdbeta analysis_dir s1c s2c s3c
      let existing := expected.filter fsExists
      let launch : List Effect :=
        if inp.tclScriptExists then
          [.spawn (analyze_command inp sels (analysis_code inp.flags) analysis_dir)]
        else [.showError "TCL script not found."]
      if existing.isEmpty then dirFx ++ launch
      else if userAccepts then dirFx ++ [.askOverwrite existing] ++ launch
      else dirFx ++ [.askOverwrite existing, .restoreIdle]

/-- `selection.replace(" ", "")` — the cleaning used by the Contacts tab
(contacts_tab.py lines 125-126): every space character is dropped. -/
def clean_contacts (s : String) : String :=
  ⟨s.data.filter (fun c => !(c = ' '))⟩

/-- Python `int` on a digit-only string (the only use site guards with
`isdigit`). -/
def digits_to_nat (s : String) : Nat :=
  s.data.foldl (fun n c => 10 * n + (c.toNat - 48)) 0

/-- Raw field values read by `run_contacts_analysis` (contacts_tab.py
lines 66-122). -/
structure ContactsInputs where
  sel1 : String
  sel2 : String
  skip : String
  cutoff : String
  calc_distance_matrix : Bool
  reference_file : Option String
  topology_file : Option String
  trajectory_file : Option String
  working_directory : String
  contactsDirExists : Bool
  tclScriptExists : Bool

/-- The input check of `run_contacts_analysis` (contacts_tab.py line 84):
`not selection1 or not selection2 or not skip.isdigit() or int(skip) <= 0
or not cutoff` rejects. -/
def contacts_input_valid (inp : ContactsInputs) : Bool :=
  !(inp.sel1 = "") && !(inp.sel2 = "") &&
    !(inp.skip = "") && inp.skip.data.all Char.isDigit && digits_to_nat inp.skip > 0 &&
    !(inp.cutoff = "")

/-- The `expected_files` list of `run_contacts_analysis` (contacts_tab.py
lines 128-140), in source append order. -/
def contacts_expected_files (contacts_dir s1c s2c : String) (calcDm : Bool) : List String :=
  [pathJoin contacts_dir ("contacts_length_" ++ s1c ++ "_" ++ s2c ++ ".dat"),
   pathJoin contacts_dir ("distbyframe_" ++ s1c ++ "_" ++ s2c ++ ".dat"),
   pathJoin contacts_dir ("percentage_" ++ s1c ++ "_" ++ s2c ++ ".dat"),
   pathJoin contacts_dir ("contacts_" ++ s1c ++ "_" ++ s2c ++ ".dat"),
   pathJoin contacts_dir ("timeline_" ++ s1c ++ "_" ++ s2c ++ ".dat"),
   pathJoin contacts_dir ("distance_length_" ++ s1c ++ "_" ++ s2c ++ ".dat")] ++
  (if calcDm then [pathJoin contacts_dir ("distance_matrix_" ++ s1c ++ "_" ++ s2c ++ ".dat")]
   else [])

/-- `os.path.join(base_dir, "TCL", "contacts_distance.tcl")`
(contacts_tab.py line 113). -/
def contacts_tcl_path : String := pathJoin script_dir "contacts_distance.tcl"

/-- The argument vector of `run_contacts_analysis` (contacts_tab.py
lines 158-170); the skip value is re-rendered through `int`. -/
def contacts_command (inp : ContactsInputs) (contacts_dir : String) : List String :=
  ["vmd", "-dispdev", "text", "-e", contacts_tcl_path, "-args",
   inp.topology_file.getD "", inp.trajectory_file.getD "",
   inp.sel1, inp.sel2, toString (digits_to_nat inp.skip), inp.cutoff,
   contacts_dir, toString (if inp.calc_distance_matrix then (1 : Nat) else 0),
   inp.reference_file.getD "None", script_dir]

/-- `run_contacts_analysis` (contacts_tab.py lines 66-270) as an effect
trace: input validation, file-loaded check, Contacts-directory creation
(`exist_ok=True`, so only a write when missing), TCL-script check, then the
overwrite prompt — declining returns with nothing further — and the spawn. -/
def run_contacts_analysis (inp : ContactsInputs) (fsExists : String → Bool)
    (userAccepts : Bool) : List Effect :=
  if !(contacts_input_valid inp) then
    [.showError "Please provide valid selections, a positive skip value, and a cutoff distance."]
  else if inp.topology_file.isNone || inp.trajectory_file.isNone then
    [.showError "Please load the topology and trajectory files in the Load Files tab."]
  else
    let contacts_dir := pathJoin inp.working_directory "Contacts"
    let dirFx : List Effect := if inp.contactsDirExists then [] else [.makeDir contacts_dir]
    if !inp.tclScriptExists then dirFx ++ [.showError "The TCL script was not found."]
    else
      let s1c := clean_contacts inp.sel1
      let s2c := clean_contacts inp.sel2
      let expected := contacts_expected_files contacts_dir s1c s2c inp.calc_distance_matrix
      let existing := expected.filter fsExists
      let launch : List Effect := [.spawn (contacts_command inp contacts_dir)]
      if existing.isEmpty then dirFx ++ launch
      else if userAccepts then dirFx ++ [.askOverwrite existing] ++ launch
      else dirFx ++ [.askOverwrite existing]

/-- Which stream a forwarded line came from. -/
inductive OutStream
  | stdout | stderr
deriving DecidableEq, Repr

/-- One forwarded line of engine output. -/
structure OutputLine where
  stream : OutStream
  text : String
deriving DecidableEq, Repr

/-- One reading loop of `read_output` (analysis_tab.py lines 816-819): each
line is appended to the display queue through `root.after(0, ...)`, which Tk
services in FIFO order, so enqueue order is insertion order. -/
def forward_lines (sink : List OutputLine) (s : OutStream) (lines : List String) :
    List OutputLine :=
  lines.foldl (fun acc l => acc ++ [⟨s, l⟩]) sink

/-- The full relay of `read_output`: the stdout loop runs to end of stream,
then the stderr loop. Returns the display-sink insertion sequence. -/
def read_output_sink (out err : List String) : List OutputLine :=
  forward_lines (forward_lines [] .stdout out) .stderr err

/-- The stdout lines of a sink sequence, in insertion order. -/
def stdout_texts (ls : List OutputLine) : List String :=
  (ls.filter (fun l => l.stream == OutStream.stdout)).map OutputLine.text

/-- What the tail of `read_output` does once the process has exited
(analysis_tab.py lines 822-845). -/
inductive CompletionEffect
  | errorExit (code : Int)
  | postProcessing
  | appendCompleted
  | restoreButtons
  | closeProgress
deriving DecidableEq, Repr

/-- The completion tail of `read_output` (analysis_tab.py lines 824-845):
a non-zero exit without a stop request surfaces the exit code and returns
early (the finally clause still closes the progress window); otherwise
post-processing runs exactly when no stop was requested, and the buttons are
restored either way. -/
def read_output_completion (returncode : Int) (stop_requested : Bool) :
    List CompletionEffect :=
  if returncode ≠ 0 ∧ stop_requested = false then
    [.errorExit returncode, .closeProgress]
  else
    (if stop_requested = false then [.postProcessing, .appendCompleted] else []) ++
      [.restoreButtons, .closeProgress]

/-- Process-control actions a cancel operation can perform. -/
inductive ProcAction
  | terminate
  | waitTimeout (seconds : Nat)
  | kill
deriving DecidableEq, Repr

/-- The four workflows whose cancel paths the source implements. -/
inductive Workflow
  | analysis | contacts | backmapping
deriving DecidableEq, Repr

/-- `stop_analysis` (analysis_tab.py lines 543-563): a bare
`state.vmd_process.terminate()` — no wait, no escalation. -/
def stop_analysis_actions : List ProcAction := [.terminate]

/-- The stop branch of the contacts `run_command` loop (contacts_tab.py
lines 212-221): terminate, wait up to five seconds, kill on timeout.
`aliveAfterGrace` is whether the wait raised TimeoutExpired. -/
def contacts_stop_actions (aliveAfterGrace : Bool) : List ProcAction :=
  [.terminate, .waitTimeout 5] ++ (if aliveAfterGrace then [.kill] else [])

/-- `stop_backmapping` (backmapping_tab.py lines 205-224): a bare
`state.backmapping_process.terminate()` — no wait, no escalation. -/
def stop_backmapping_actions : List ProcAction := [.terminate]

/-- The process-control actions each workflow performs on cancel. -/
def cancel_actions : Workflow → Bool → List ProcAction
  | .analysis, _ => stop_analysis_actions
  | .contacts, aliveAfterGrace => contacts_stop_actions aliveAfterGrace
  | .backmapping, _ => stop_backmapping_actions

/-- The cancel contract the spec states (section 4.3): send terminate, wait
a bounded grace period, and escalate to kill if the process outlives it. -/
def cancel_contract (acts : List ProcAction) (aliveAfterGrace : Bool) : Prop :=
  ProcAction.terminate ∈ acts ∧ (∃ g, ProcAction.waitTimeout g ∈ acts) ∧
    (aliveAfterGrace = true → ProcAction.kill ∈ acts)

/-- The widget state touched by `update_sasa_contact_surface`
(analysis_tab.py lines 170-186): the two checkbutton variables and whether
each checkbutton accepts clicks. -/
structure SasaContactState where
  sasa : Bool
  contact_surface : Bool
  sasa_enabled : Bool
  contact_enabled : Bool
deriving DecidableEq, Repr

/-- `update_sasa_contact_surface` (analysis_tab.py lines 170-186): if SASA is
checked, uncheck Contact surface and disable its button; else if Contact
surface is checked, uncheck SASA and disable its button; else enable both. -/
def update_sasa_contact_surface (s : SasaContactState) : SasaContactState :=
  if s.sasa then
    { s with contact_surface := false, contact_enabled := false, sasa_enabled := true }
  else if s.contact_surface then
    { s with sasa := false, sasa_enabled := false, contact_enabled := true }
  else
    { s with sasa_enabled := true, contact_enabled := true }

/-- A user click on the SASA checkbutton: ignored while disabled, otherwise
the variable toggles and the shared command callback runs. -/
def click_sasa (s : SasaContactState) : SasaContactState :=
  if s.sasa_enabled then update_sasa_contact_surface { s with sasa := !s.sasa } else s

/-- A user click on the Contact-surface checkbutton. -/
def click_contact_surface (s : SasaContactState) : SasaContactState :=
  if s.contact_enabled then
    update_sasa_contact_surface { s with contact_surface := !s.contact_surface }
  else s

/-- The states the SASA / Contact-surface pair can reach from the freshly
built tab (both unchecked, both clickable) by any sequence of clicks. -/
inductive ReachableSC : SasaContactState → Prop
  | init : ReachableSC ⟨false, false, true, true⟩
  | sasaClick {s : SasaContactState} : ReachableSC s → ReachableSC (click_sasa s)
  | contactClick {s : SasaContactState} : ReachableSC s → ReachableSC (click_contact_surface s)

/-! ## Concrete scenario inputs -/

/-- A concrete job with RMSD, Rgyr and SASA checked (bitmask 13):
selection 1 is A, selection 2 is B, selection 3 empty. -/
def inp13 : RawInputs where
  working_directory := some "wd"
  analysisDirExists := true
  sel1 := "A"
  sel2 := "B"
  sel3 := ""
  time_step := some 1
  steps_between_frames := some 1
  reference_file := none
  skip := "1"
  srad := "2.1"
  flags := ⟨true, false, true, true, false, false, false⟩
  report := false
  rmsf2pdbeta := false
  topology_file := some "t.psf"
  trajectory_file := some "t.dcd"
  tclScriptExists := true

/-- A concrete job with no analysis flag checked and a time-step entry that
does not convert to a number. -/
def inpNoFlagsBadStep : RawInputs where
  working_directory := some "wd"
  analysisDirExists := true
  sel1 := ""
  sel2 := ""
  sel3 := ""
  time_step := none
  steps_between_frames := some 1
  reference_file := none
  skip := "1"
  srad := "2.1"
  flags := ⟨false, false, false, false, false, false, false⟩
  report := false
  rmsf2pdbeta := false
  topology_file := some "t.psf"
  trajectory_file := some "t.dcd"
  tclScriptExists := true

/-- A concrete job with only RMSD checked, selection 1 set, and a negative
time step. -/
def inpNegStep : RawInputs where
  working_directory := some "wd"
  analysisDirExists := true
  sel1 := "A"
  sel2 := ""
  sel3 := ""
  time_step := some (-5)
  steps_between_frames := some 1
  reference_file := none
  skip := "1"
  srad := "2.1"
  flags := ⟨true, false, false, false, false, false, false⟩
  report := false
  rmsf2pdbeta := false
  topology_file := some "t.psf"
  trajectory_file := some "t.dcd"
  tclScriptExists := true

/-- A concrete contacts job with the default field values of the tab. -/
def cinp1 : ContactsInputs where
  sel1 := "name GC"
  sel2 := "name GC"
  skip := "100"
  cutoff := "8.00"
  calc_distance_matrix := false
  reference_file := none
  topology_file := some "t.psf"
  trajectory_file := some "t.dcd"
  working_directory := "wd"
  contactsDirExists := true
  tclScriptExists := true

/-! ## Helper lemmas -/

theorem analysis_code_testBit (a b c d e g h : Bool) :
    (analysis_code ⟨a, b, c, d, e, g, h⟩).testBit 0 = a ∧
    (analysis_code ⟨a, b, c, d, e, g, h⟩).testBit 1 = b ∧
    (analysis_code ⟨a, b, c, d, e, g, h⟩).testBit 2 = c ∧
    (analysis_code ⟨a, b, c, d, e, g, h⟩).testBit 3 = d ∧
    (analysis_code ⟨a, b, c, d, e, g, h⟩).testBit 4 = e ∧
    (analysis_code ⟨a, b, c, d, e, g, h⟩).testBit 5 = g ∧
    (analysis_code ⟨a, b, c, d, e, g, h⟩).testBit 6 = h ∧
    analysis_code ⟨a, b, c, d, e, g, h⟩ < 128 := by
  cases a <;> cases b <;> cases c <;> cases d <;> cases e <;> cases g <;> cases h <;> decide

theorem forward_lines_eq (sink : List OutputLine) (s : OutStream) (lines : List String) :
    forward_lines sink s lines = sink ++ lines.map (fun t => ⟨s, t⟩) := by
  induction lines generalizing sink with
  | nil => simp [forward_lines]
  | cons x xs ih =>
    show forward_lines (sink ++ [⟨s, x⟩]) s xs = _
    rw [ih]
    simp

theorem stdout_texts_append (l1 l2 : List OutputLine) :
    stdout_texts (l1 ++ l2) = stdout_texts l1 ++ stdout_texts l2 := by
  simp [stdout_texts, List.filter_append]

theorem stdout_texts_of_stdout (lines : List String) :
    stdout_texts (lines.map (fun t => ⟨OutStream.stdout, t⟩)) = lines := by
  induction lines with
  | nil => rfl
  | cons x xs ih => simpa [stdout_texts] using ih

theorem stdout_texts_of_stderr (lines : List String) :
    stdout_texts (lines.map (fun t => ⟨OutStream.stderr, t⟩)) = [] := by
  induction lines with
  | nil => rfl
  | cons x xs ih => simp [stdout_texts] at ih ⊢

theorem reachable_not_both {s : SasaContactState} (h : ReachableSC s) :
    ¬(s.sasa = true ∧ s.contact_surface = true) := by
  induction h with
  | init => decide
  | sasaClick _ ih =>
    rename_i s _
    obtain ⟨a, b, c, d⟩ := s
    revert ih
    cases a <;> cases b <;> cases c <;> cases d <;> decide
  | contactClick _ ih =>
    rename_i s _
    obtain ⟨a, b, c, d⟩ := s
    revert ih
    cases a <;> cases b <;> cases c <;> cases d <;> decide

theorem takeWhile_of_all_true {α : Type} (q : α → Bool) (l : List α)
    (h : ∀ x ∈ l, q x = true) : l.takeWhile q = l := by
  induction l with
  | nil => rfl
  | cons a l ih =>
    rw [List.takeWhile_cons, if_pos (h a (List.mem_cons_self a l))]
    rw [ih (fun x hx => h x (List.mem_cons_of_mem a hx))]

theorem takeWhile_of_head_false {α : Type} (q : α → Bool) (l : List α)
    (h : ∀ x ∈ l, q x = false) : l.takeWhile q = [] := by
  cases l with
  | nil => rfl
  | cons a l =>
    rw [List.takeWhile_cons, if_neg]
    simp [h a (List.mem_cons_self a l)]

theorem mem_of_mem_takeWhile {α : Type} {q : α → Bool} {l : List α} {x : α}
    (h : x ∈ l.takeWhile q) : x ∈ l := by
  induction l with
  | nil => simp at h
  | cons a l ih =>
    rw [List.takeWhile_cons] at h
    by_cases hq : q a = true
    · rw [if_pos hq] at h
      rcases List.mem_cons.mp h with h | h
      · exact h ▸ List.mem_cons_self a l
      · exact List.mem_cons_of_mem a (ih h)
    · rw [if_neg hq] at h
      exact absurd h (List.not_mem_nil x)

theorem mem_dispatch_order (k : AKind) : k ∈ dispatch_order := by
  cases k <;> decide

theorem mem_produced_images {flags : AnalysisFlags} {dir s1c s2c s3c : String}
    {datExists renderOk : String → Bool} {p : String} :
    p ∈ produced_images flags dir s1c s2c s3c datExists renderOk ↔
      ∃ k : AKind, requested flags k = true ∧
        p ∈ plot_images (datExists (pathJoin dir (dat_file k s1c s2c s3c))) renderOk
            ((png_files k s1c s2c s3c).map (pathJoin dir)) := by
  rw [produced_images, List.mem_flatMap]
  constructor
  · rintro ⟨k, hk, hp⟩
    exact ⟨k, (List.mem_filter.mp hk).2, hp⟩
  · rintro ⟨k, hk, hp⟩
    exact ⟨k, List.mem_filter.mpr ⟨mem_dispatch_order k, hk⟩, hp⟩

theorem mem_generate_pdf_pages {flags : AnalysisFlags} {dir s1c s2c s3c : String}
    {imgExists : String → Bool} {p : String} :
    p ∈ generate_pdf_pages flags dir s1c s2c s3c imgExists ↔
      ∃ k : AKind, requested flags k = true ∧
        p ∈ ((png_files k s1c s2c s3c).map (pathJoin dir)).filter imgExists := by
  rw [generate_pdf_pages, List.mem_flatMap]
  constructor
  · rintro ⟨k, hk, hp⟩
    exact ⟨k, (List.mem_filter.mp hk).2, hp⟩
  · rintro ⟨k, hk, hp⟩
    exact ⟨k, List.mem_filter.mpr ⟨mem_dispatch_order k, hk⟩, hp⟩

/-! ## Claim theorems -/

/-- C4: the Post-Processing Dispatcher runs if and only if the external
process exited with code 0 and no stop was requested; a non-zero exit
without a stop request surfaces the exit code and skips post-processing;
a stop request always skips post-processing. -/
theorem C4_post_processing_iff_clean_success :
    ∀ (rc : Int) (stop_requested : Bool),
      (CompletionEffect.postProcessing ∈ read_output_completion rc stop_requested ↔
        rc = 0 ∧ stop_requested = false) ∧
      (rc ≠ 0 ∧ stop_requested = false →
        CompletionEffect.errorExit rc ∈ read_output_completion rc stop_requested ∧
          CompletionEffect.postProcessing ∉ read_output_completion rc stop_requested) ∧
      (stop_requested = true →
        CompletionEffect.postProcessing ∉ read_output_completion rc stop_requested) := by
  intro rc stop_requested
  by_cases hrc : rc = 0 <;> cases stop_requested <;>
    simp [read_output_completion, hrc]

/-- Witness for C4 at exit codes 0 and 2. -/
theorem C4_post_processing_iff_clean_success_witness :
    CompletionEffect.postProcessing ∈ read_output_completion 0 false ∧
    CompletionEffect.errorExit 2 ∈ read_output_completion 2 false ∧
    CompletionEffect.postProcessing ∉ read_output_completion 2 false ∧
    CompletionEffect.postProcessing ∉ read_output_completion 0 true :=
  ⟨((C4_post_processing_iff_clean_success 0 false).1).mpr ⟨rfl, rfl⟩,
   ((C4_post_processing_iff_clean_success 2 false).2.1 ⟨by decide, rfl⟩).1,
   ((C4_post_processing_iff_clean_success 2 false).2.1 ⟨by decide, rfl⟩).2,
   (C4_post_processing_iff_clean_success 0 true).2.2 rfl⟩

/-- C6: the selection fallback is deterministic — basic-only broadcasts a
non-empty selection 1 to all three slots; advanced-only copies selection 2
into slot 1 and fills an empty slot 3 from selection 2; and for
bitmask = 1 (RMSD only) with selection1 = A and empty slots 2 and 3, all
three slots become A. -/
theorem C6_selection_fallback_deterministic :
    (∀ (flags : AnalysisFlags) (s1 s2 s3 : String),
      (flags.rmsd || flags.rmsf || flags.rgyr) = true →
      (flags.sasa || flags.nativec || flags.rdf || flags.contact_surface) = false →
      s1 ≠ "" →
      selection_fallback flags s1 s2 s3 = .ok ⟨s1, s1, s1⟩) ∧
    (∀ (flags : AnalysisFlags) (s1 s2 s3 : String),
      (flags.rmsd || flags.rmsf || flags.rgyr) = false →
      (flags.sasa || flags.nativec || flags.rdf || flags.contact_surface) = true →
      s2 ≠ "" →
      selection_fallback flags s1 s2 s3 = .ok ⟨s2, s2, if s3 = "" then s2 else s3⟩) ∧
    (analysis_code ⟨true, false, false, false, false, false, false⟩ = 1 ∧
      selection_fallback ⟨true, false, false, false, false, false, false⟩ "A" "" "" =
        .ok ⟨"A", "A", "A"⟩) := by
  refine ⟨?_, ?_, by decide, ?_⟩
  · intro flags s1 s2 s3 hb ha hs1
    simp [selection_fallback, hb, ha, hs1]
  · intro flags s1 s2 s3 hb ha hs2
    simp [selection_fallback, hb, ha, hs2]
  · rfl

/-- Witness for C6: basic-only broadcast at RMSF with selection "name CA",
and advanced-only fill at RDF with selection 2 "name GC". -/
theorem C6_selection_fallback_deterministic_witness :
    selection_fallback ⟨false, true, false, false, false, false, false⟩ "name CA" "x" "y" =
      .ok ⟨"name CA", "name CA", "name CA"⟩ ∧
    selection_fallback ⟨false, false, false, false, false, true, false⟩ "" "name GC" "" =
      .ok ⟨"name GC", "name GC", "name GC"⟩ :=
  ⟨C6_selection_fallback_deterministic.1 ⟨false, true, false, false, false, false, false⟩
      "name CA" "x" "y" rfl rfl (by decide),
   by
    have h := C6_selection_fallback_deterministic.2.1
      ⟨false, false, false, false, false, true, false⟩ "" "name GC" "" rfl rfl (by decide)
    simpa using h⟩

/-- C8: the Output Relay delivers stdout lines to the display sink in
production order, for every stdout and stderr stream content; in
particular a synthetic engine printing stdout lines 1 through 100 has
them inserted in exactly that order. -/
theorem C8_output_relay_preserves_stdout_order :
    (∀ out err : List String, stdout_texts (read_output_sink out err) = out) ∧
    stdout_texts
        (read_output_sink ((List.range 100).map (fun i => toString (i + 1))) []) =
      (List.range 100).map (fun i => toString (i + 1)) := by
  have hmain : ∀ out err : List String, stdout_texts (read_output_sink out err) = out := by
    intro out err
    rw [read_output_sink, forward_lines_eq, forward_lines_eq]
    rw [List.nil_append, stdout_texts_append, stdout_texts_of_stdout,
      stdout_texts_of_stderr, List.append_nil]
  exact ⟨hmain, hmain _ _⟩

/-- C9 is false as stated: the analysis workflow cancel (`stop_analysis`)
only sends terminate — even if the process is still alive afterwards it is
never waited on with a grace period and never killed. -/
theorem C9_counterexample :
    ¬ cancel_contract (cancel_actions Workflow.analysis true) true := by
  intro h
  exact absurd (h.2.2 rfl) (by decide)

/-- C9 amended: only the contacts workflow implements the full cancel
protocol (terminate, five-second grace wait, kill if still alive); the
analysis and backmapping workflow cancels perform a bare terminate with no
grace wait and no kill escalation. -/
theorem C9_cancel_protocol_per_workflow :
    (∀ aliveAfterGrace : Bool,
      cancel_contract (cancel_actions Workflow.contacts aliveAfterGrace) aliveAfterGrace) ∧
    (∀ aliveAfterGrace : Bool,
      cancel_actions Workflow.analysis aliveAfterGrace = [ProcAction.terminate] ∧
      cancel_actions Workflow.backmapping aliveAfterGrace = [ProcAction.terminate] ∧
      (∀ g, ProcAction.waitTimeout g ∉ cancel_actions Workflow.analysis aliveAfterGrace) ∧
      ProcAction.kill ∉ cancel_actions Workflow.analysis aliveAfterGrace ∧
      ProcAction.kill ∉ cancel_actions Workflow.backmapping aliveAfterGrace) := by
  constructor
  · intro alive
    refine ⟨?_, ⟨5, ?_⟩, ?_⟩
    · cases alive <;> decide
    · cases alive <;> decide
    · intro h
      cases alive
      · exact absurd h (by decide)
      · decide
  · intro alive
    exact ⟨rfl, rfl, fun g => by simp [cancel_actions, stop_analysis_actions],
      by simp [cancel_actions, stop_analysis_actions],
      by simp [cancel_actions, stop_backmapping_actions]⟩

/-- Witness for C9 amended, at a process that outlives the grace period. -/
theorem C9_cancel_protocol_per_workflow_witness :
    cancel_contract (cancel_actions Workflow.contacts true) true ∧
    cancel_actions Workflow.analysis true = [ProcAction.terminate] :=
  ⟨C9_cancel_protocol_per_workflow.1 true, (C9_cancel_protocol_per_workflow.2 true).1⟩

/-- C10: in every widget state reachable by clicking, SASA and Contact
surface are never both checked, so any bitmask built from such a state has
at most one of bit 3 (value 8) and bit 6 (value 64) set. -/
theorem C10_sasa_contact_surface_exclusive :
    ∀ (s : SasaContactState), ReachableSC s →
      ∀ (f : AnalysisFlags), f.sasa = s.sasa → f.contact_surface = s.contact_surface →
        ¬((analysis_code f).testBit 3 = true ∧ (analysis_code f).testBit 6 = true) := by
  intro s hs f h8 h64 ⟨hb3, hb6⟩
  obtain ⟨a, b, c, d, e, g, h⟩ := f
  obtain ⟨-, -, -, ht3, -, -, ht6, -⟩ := analysis_code_testBit a b c d e g h
  exact reachable_not_both hs ⟨by rw [← h8, ← ht3, hb3], by rw [← h64, ← ht6, hb6]⟩

/-- Witness for C10: the state after one click on SASA, with the matching
flag record (bitmask 8). -/
theorem C10_sasa_contact_surface_exclusive_witness :
    ¬(((analysis_code ⟨false, false, false, true, false, false, false⟩).testBit 3 = true) ∧
      ((analysis_code ⟨false, false, false, true, false, false, false⟩).testBit 6 = true)) :=
  C10_sasa_contact_surface_exclusive (click_sasa ⟨false, false, true, true⟩)
    (ReachableSC.sasaClick ReachableSC.init)
    ⟨false, false, false, true, false, false, false⟩ rfl rfl

/-- C2 is false as stated: when the Contact-surface bit is set, the
Overwrite Guard checks no paths at all for that kind, while the dispatcher
reads the contact-surface data file and writes the contact-surface image. -/
theorem C2_counterexample :
    guard_files AKind.contact_surface "d" "a" "b" "c" = [] ∧
    dispatch_files AKind.contact_surface "d" "a" "b" "c" =
      ["d/contact_surface_b_c.dat", "d/ContactSurface_b_c.png"] ∧
    ¬(∀ p ∈ dispatch_files AKind.contact_surface "d" "a" "b" "c",
        p ∈ guard_files AKind.contact_surface "d" "a" "b" "c") := by
  refine ⟨rfl, rfl, ?_⟩
  intro hall
  exact absurd (hall "d/contact_surface_b_c.dat" (by decide)) (by decide)

/-- C2 amended: for every set bit other than Contact surface, the paths the
Overwrite Guard tests are exactly the paths the dispatcher later reads and
writes for that kind (same prefix, cleaned selections joined by an
underscore, same extensions); for the Contact-surface bit the guard tests
nothing. -/
theorem C2_guard_dispatch_agreement :
    ∀ (k : AKind) (analysis_dir s1c s2c s3c : String),
      (k ≠ AKind.contact_surface →
        guard_files k analysis_dir s1c s2c s3c = dispatch_files k analysis_dir s1c s2c s3c) ∧
      guard_files AKind.contact_surface analysis_dir s1c s2c s3c = [] := by
  intro k d s1 s2 s3
  refine ⟨?_, rfl⟩
  intro hk
  cases k
  case contact_surface => exact absurd rfl hk
  all_goals rfl

/-- Witness for C2 amended, at the RMSD kind. -/
theorem C2_guard_dispatch_agreement_witness :
    guard_files AKind.rmsd "d" "a" "b" "c" = dispatch_files AKind.rmsd "d" "a" "b" "c" :=
  (C2_guard_dispatch_agreement AKind.rmsd "d" "a" "b" "c").1 (by decide)

theorem analyze_ok_launch (inp : RawInputs) (wd : String) (sels : SelTriple)
    (fs : String → Bool) (acc : Bool)
    (hwd : inp.working_directory = some wd)
    (hval : analyze_validate inp = .ok sels)
    (htcl : inp.tclScriptExists = true)
    (hnone : (expected_files inp.flags inp.report inp.rmsf2pdbeta (pathJoin wd "Analysis")
      (clean sels.s1) (clean sels.s2) (clean sels.s3)).filter fs = []) :
    analyze inp fs acc =
      (if inp.analysisDirExists then [] else [Effect.makeDir (pathJoin wd "Analysis")]) ++
        [Effect.spawn (analyze_command inp sels (analysis_code inp.flags)
          (pathJoin wd "Analysis"))] := by
  unfold analyze
  rw [hwd]
  simp only [hval, hnone, htcl]
  simp

/-- C7: the bitmask handed to the engine is the sum of the disjoint
power-of-two codes of the checked analyses (bit 0 RMSD … bit 6 Contact
surface), and for requested kinds RMSD, Rgyr, SASA (codes 1, 4, 8) with no
pre-existing outputs the engine is spawned exactly once, with the decimal
string "13" at position 11 of the argument vector. -/
theorem C7_bitmask_sum_and_argument :
    (∀ a b c d e g h : Bool,
      (analysis_code ⟨a, b, c, d, e, g, h⟩).testBit 0 = a ∧
      (analysis_code ⟨a, b, c, d, e, g, h⟩).testBit 1 = b ∧
      (analysis_code ⟨a, b, c, d, e, g, h⟩).testBit 2 = c ∧
      (analysis_code ⟨a, b, c, d, e, g, h⟩).testBit 3 = d ∧
      (analysis_code ⟨a, b, c, d, e, g, h⟩).testBit 4 = e ∧
      (analysis_code ⟨a, b, c, d, e, g, h⟩).testBit 5 = g ∧
      (analysis_code ⟨a, b, c, d, e, g, h⟩).testBit 6 = h ∧
      analysis_code ⟨a, b, c, d, e, g, h⟩ < 128) ∧
    analysis_code ⟨true, false, true, true, false, false, false⟩ = 13 ∧
    (∀ (inp : RawInputs) (wd : String) (sels : SelTriple) (fs : String → Bool) (acc : Bool),
      inp.working_directory = some wd →
      analyze_validate inp = .ok sels →
      inp.tclScriptExists = true →
      (expected_files inp.flags inp.report inp.rmsf2pdbeta (pathJoin wd "Analysis")
        (clean sels.s1) (clean sels.s2) (clean sels.s3)).filter fs = [] →
      inp.flags = ⟨true, false, true, true, false, false, false⟩ →
      (analyze inp fs acc).filter Effect.isSpawn =
        [Effect.spawn (analyze_command inp sels 13 (pathJoin wd "Analysis"))] ∧
      (analyze_command inp sels 13 (pathJoin wd "Analysis"))[11]? = some "13") := by
  refine ⟨analysis_code_testBit, rfl, ?_⟩
  intro inp wd sels fs acc hwd hval htcl hnone hflags
  have h13 : analysis_code inp.flags = 13 := by rw [hflags]; rfl
  have hrun := analyze_ok_launch inp wd sels fs acc hwd hval htcl hnone
  rw [h13] at hrun
  constructor
  · rw [hrun, List.filter_append]
    by_cases hd : inp.analysisDirExists <;> simp [hd, Effect.isSpawn]
  · rfl

/-- Witness for C7: the concrete job `inp13` against a filesystem with no
pre-existing outputs. -/
theorem C7_bitmask_sum_and_argument_witness :
    (analyze inp13 (fun _ => false) true).filter Effect.isSpawn =
      [Effect.spawn (analyze_command inp13 ⟨"A", "B", "B"⟩ 13 (pathJoin "wd" "Analysis"))] :=
  ((C7_bitmask_sum_and_argument.2.2 inp13 "wd" ⟨"A", "B", "B"⟩ (fun _ => false) true
    rfl rfl rfl rfl rfl)).1

/-- C5 is false as stated: with no analysis flag checked and a time-step
entry that does not convert, the code reports the time-step failure, not the
missing-flag failure the claimed check order (flags first) would name; and a
negative time step, which the claim says must be rejected as non-positive,
passes validation. -/
theorem C5_counterexample :
    analyze_validate inpNoFlagsBadStep = Except.error ValidationError.invalidTimeStep ∧
    claimed_validate inpNoFlagsBadStep = Except.error ValidationError.noAnalysesSelected ∧
    ValidationError.invalidTimeStep ≠ ValidationError.noAnalysesSelected ∧
    analyze_validate inpNegStep = Except.ok ⟨"A", "A", "A"⟩ ∧
    claimed_validate inpNegStep = Except.error ValidationError.invalidTimeStep := by
  refine ⟨rfl, rfl, by decide, rfl, rfl⟩

/-- C5 amended: validation fails with the first unmet precondition in the
code order — working directory set, then time step converts to a number,
then steps-between-frames converts, then the flag and selection chain
(which also reports the no-analyses case), then topology and trajectory
loaded; the sign of the numeric fields is never checked; and no process is
spawned when any precondition fails. -/
theorem C5_validation_order :
    (∀ inp : RawInputs, inp.working_directory = none →
      analyze_validate inp = .error .workingDirNotSet) ∧
    (∀ (inp : RawInputs) (wd : String), inp.working_directory = some wd →
      inp.time_step = none → analyze_validate inp = .error .invalidTimeStep) ∧
    (∀ (inp : RawInputs) (wd : String) (t : Rat), inp.working_directory = some wd →
      inp.time_step = some t → inp.steps_between_frames = none →
      analyze_validate inp = .error .invalidStepsBetweenFrames) ∧
    (∀ (inp : RawInputs) (wd : String) (t s : Rat) (e : ValidationError),
      inp.working_directory = some wd → inp.time_step = some t →
      inp.steps_between_frames = some s →
      selection_fallback inp.flags inp.sel1 inp.sel2 inp.sel3 = .error e →
      analyze_validate inp = .error e) ∧
    (∀ (inp : RawInputs) (wd : String) (t s : Rat) (sels : SelTriple),
      inp.working_directory = some wd → inp.time_step = some t →
      inp.steps_between_frames = some s →
      selection_fallback inp.flags inp.sel1 inp.sel2 inp.sel3 = .ok sels →
      (inp.topology_file.isNone || inp.trajectory_file.isNone) = true →
      analyze_validate inp = .error .filesNotLoaded) ∧
    (∀ (inp : RawInputs) (wd : String) (t s : Rat) (sels : SelTriple),
      inp.working_directory = some wd → inp.time_step = some t →
      inp.steps_between_frames = some s →
      selection_fallback inp.flags inp.sel1 inp.sel2 inp.sel3 = .ok sels →
      (inp.topology_file.isNone || inp.trajectory_file.isNone) = false →
      analyze_validate inp = .ok sels) ∧
    (∀ (inp : RawInputs) (fs : String → Bool) (acc : Bool) (e : ValidationError),
      analyze_validate inp = .error e → ∀ c, Effect.spawn c ∉ analyze inp fs acc) := by
  refine ⟨?_, ?_, ?_, ?_, ?_, ?_, ?_⟩
  · intro inp h
    simp [analyze_validate, h]
  · intro inp wd hwd hts
    simp [analyze_validate, hwd, hts]
  · intro inp wd t hwd hts hs
    simp [analyze_validate, hwd, hts, hs]
  · intro inp wd t s e hwd hts hs hsel
    simp [analyze_validate, hwd, hts, hs, hsel]
  · intro inp wd t s sels hwd hts hs hsel hfiles
    simp [analyze_validate, hwd, hts, hs, hsel, hfiles]
  · intro inp wd t s sels hwd hts hs hsel hfiles
    simp [analyze_validate, hwd, hts, hs, hsel, hfiles]
  · intro inp fs acc e hval c
    unfold analyze
    rcases hw : inp.working_directory with - | wd
    · simp [error_effect]
    · rw [hval]
      by_cases hd : inp.analysisDirExists <;> cases e <;>
        simp [hd, error_effect]

/-- Witness for C5 amended: the concrete no-flags job with a bad time step
reports the time-step failure and never spawns. -/
theorem C5_validation_order_witness :
    analyze_validate inpNoFlagsBadStep = .error .invalidTimeStep ∧
    Effect.spawn [] ∉ analyze inpNoFlagsBadStep (fun _ => false) true :=
  ⟨C5_validation_order.2.1 inpNoFlagsBadStep "wd" rfl rfl,
   C5_validation_order.2.2.2.2.2.2 inpNoFlagsBadStep (fun _ => false) true
     ValidationError.invalidTimeStep
     (C5_validation_order.2.1 inpNoFlagsBadStep "wd" rfl rfl) []⟩

theorem analyze_guard_trace (inp : RawInputs) (wd : String) (sels : SelTriple)
    (fs : String → Bool) (acc : Bool)
    (hwd : inp.working_directory = some wd)
    (hval : analyze_validate inp = .ok sels)
    (hdir : inp.analysisDirExists = true)
    (existing : List String)
    (hex : (expected_files inp.flags inp.report inp.rmsf2pdbeta (pathJoin wd "Analysis")
      (clean sels.s1) (clean sels.s2) (clean sels.s3)).filter fs = existing)
    (hne : existing ≠ []) :
    analyze inp fs acc =
      Effect.askOverwrite existing ::
        (if acc then
          (if inp.tclScriptExists then
            [Effect.spawn (analyze_command inp sels (analysis_code inp.flags)
              (pathJoin wd "Analysis"))]
          else [Effect.showError "TCL script not found."])
        else [Effect.restoreIdle]) := by
  have hie : existing.isEmpty = false := by
    cases existing with
    | nil => exact absurd rfl hne
    | cons a l => rfl
  unfold analyze
  rw [hwd]
  simp only [hval, hdir, hex]
  cases acc <;> simp [hie]

theorem contacts_guard_trace (inp : ContactsInputs) (fs : String → Bool) (acc : Bool)
    (hvalid : contacts_input_valid inp = true)
    (hfiles : (inp.topology_file.isNone || inp.trajectory_file.isNone) = false)
    (hdir : inp.contactsDirExists = true)
    (htcl : inp.tclScriptExists = true)
    (existing : List String)
    (hex : (contacts_expected_files (pathJoin inp.working_directory "Contacts")
      (clean_contacts inp.sel1) (clean_contacts inp.sel2) inp.calc_distance_matrix).filter fs
      = existing)
    (hne : existing ≠ []) :
    run_contacts_analysis inp fs acc =
      Effect.askOverwrite existing ::
        (if acc then
          [Effect.spawn (contacts_command inp (pathJoin inp.working_directory "Contacts"))]
        else []) := by
  have hie : existing.isEmpty = false := by
    cases existing with
    | nil => exact absurd rfl hne
    | cons a l => rfl
  unfold run_contacts_analysis
  simp only [hvalid, hfiles, hdir, htcl, hex]
  cases acc <;> simp [hie]

/-- C3: when at least one expected output pre-exists, the guard presents
exactly one confirmation, and it comes before any spawn (the confirmation
heads the trace whatever the answer); declining spawns no process, performs
no filesystem write, and returns the job to Idle (controls restored,
progress closed). The same holds for the contacts workflow guard, whose
decline path simply returns. -/
theorem C3_overwrite_guard_decline_aborts (inp : RawInputs) (wd : String)
    (sels : SelTriple) (fs : String → Bool)
    (cinp : ContactsInputs) (cfs : String → Bool)
    (hwd : inp.working_directory = some wd)
    (hval : analyze_validate inp = .ok sels)
    (hdir : inp.analysisDirExists = true)
    (existing : List String)
    (hex : (expected_files inp.flags inp.report inp.rmsf2pdbeta (pathJoin wd "Analysis")
      (clean sels.s1) (clean sels.s2) (clean sels.s3)).filter fs = existing)
    (hne : existing ≠ [])
    (hcvalid : contacts_input_valid cinp = true)
    (hcfiles : (cinp.topology_file.isNone || cinp.trajectory_file.isNone) = false)
    (hcdir : cinp.contactsDirExists = true)
    (hctcl : cinp.tclScriptExists = true)
    (cexisting : List String)
    (hcex : (contacts_expected_files (pathJoin cinp.working_directory "Contacts")
      (clean_contacts cinp.sel1) (clean_contacts cinp.sel2) cinp.calc_distance_matrix).filter cfs
      = cexisting)
    (hcne : cexisting ≠ []) :
    analyze inp fs false = [Effect.askOverwrite existing, Effect.restoreIdle] ∧
    (∀ acc, ∃ tail, analyze inp fs acc = Effect.askOverwrite existing :: tail) ∧
    (∀ c, Effect.spawn c ∉ analyze inp fs false) ∧
    (∀ d, Effect.makeDir d ∉ analyze inp fs false) ∧
    run_contacts_analysis cinp cfs false = [Effect.askOverwrite cexisting] ∧
    (∀ c, Effect.spawn c ∉ run_contacts_analysis cinp cfs false) ∧
    (∀ d, Effect.makeDir d ∉ run_contacts_analysis cinp cfs false) := by
  have hdec := analyze_guard_trace inp wd sels fs false hwd hval hdir existing hex hne
  simp only [if_neg Bool.false_ne_true] at hdec
  have hcdec := contacts_guard_trace cinp cfs false hcvalid hcfiles hcdir hctcl
    cexisting hcex hcne
  simp only [if_neg Bool.false_ne_true] at hcdec
  refine ⟨hdec, ?_, ?_, ?_, hcdec, ?_, ?_⟩
  · intro acc
    exact ⟨_, analyze_guard_trace inp wd sels fs acc hwd hval hdir existing hex hne⟩
  · intro c
    rw [hdec]
    simp
  · intro d
    rw [hdec]
    simp
  · intro c
    rw [hcdec]
    simp
  · intro d
    rw [hcdec]
    simp

/-- Witness for C3: a job whose RMSD data file already exists, declined, and
a contacts job whose timeline file already exists, declined. -/
theorem C3_overwrite_guard_decline_aborts_witness :
    analyze inp13 (fun p => p == "wd/Analysis/RMSD_A.dat") false =
      [Effect.askOverwrite ["wd/Analysis/RMSD_A.dat"], Effect.restoreIdle] ∧
    run_contacts_analysis cinp1
        (fun p => p == "wd/Contacts/timeline_nameGC_nameGC.dat") false =
      [Effect.askOverwrite ["wd/Contacts/timeline_nameGC_nameGC.dat"]] := by
  have h := C3_overwrite_guard_decline_aborts inp13 "wd" ⟨"A", "B", "B"⟩
    (fun p => p == "wd/Analysis/RMSD_A.dat") cinp1
    (fun p => p == "wd/Contacts/timeline_nameGC_nameGC.dat")
    rfl rfl rfl ["wd/Analysis/RMSD_A.dat"] (by decide) (by decide)
    rfl rfl rfl rfl ["wd/Contacts/timeline_nameGC_nameGC.dat"] (by decide) (by decide)
  exact ⟨h.1, h.2.2.2.2.1⟩

/-- C1: failures are isolated per analysis kind. For every set of requested
kinds, if rendering throws for exactly one kind `fk` (all its images fail,
every other kind renders fine, data files present, no stale images, and the
kinds' image paths do not collide), then every other requested kind's plots
are still produced, the failed kind's plot is not, and the report contains
the pages of every other requested kind while silently skipping the failed
kind's page. -/
theorem C1_post_processing_failure_isolated
    (flags : AnalysisFlags) (dir s1c s2c s3c : String) (fk : AKind)
    (datExists renderOk pngExists0 : String → Bool)
    (hdat : ∀ p, datExists p = true)
    (hpng0 : ∀ p, pngExists0 p = false)
    (hfail : ∀ p ∈ (png_files fk s1c s2c s3c).map (pathJoin dir), renderOk p = false)
    (hok : ∀ k : AKind, k ≠ fk → ∀ p ∈ (png_files k s1c s2c s3c).map (pathJoin dir),
      renderOk p = true)
    (hdisj : ∀ k : AKind, k ≠ fk → ∀ p ∈ (png_files k s1c s2c s3c).map (pathJoin dir),
      p ∉ (png_files fk s1c s2c s3c).map (pathJoin dir)) :
    (∀ k : AKind, requested flags k = true → k ≠ fk →
      ∀ p ∈ (png_files k s1c s2c s3c).map (pathJoin dir),
        p ∈ (post_process_analysis flags true dir s1c s2c s3c datExists renderOk pngExists0).1) ∧
    (∀ p ∈ (png_files fk s1c s2c s3c).map (pathJoin dir),
      p ∉ (post_process_analysis flags true dir s1c s2c s3c datExists renderOk pngExists0).1) ∧
    (∀ k : AKind, requested flags k = true → k ≠ fk →
      ∀ p ∈ (png_files k s1c s2c s3c).map (pathJoin dir),
        p ∈ (post_process_analysis flags true dir s1c s2c s3c datExists renderOk pngExists0).2) ∧
    (∀ p ∈ (png_files fk s1c s2c s3c).map (pathJoin dir),
      p ∉ (post_process_analysis flags true dir s1c s2c s3c datExists renderOk pngExists0).2) := by
  have hprod1 : (post_process_analysis flags true dir s1c s2c s3c datExists renderOk
      pngExists0).1 = produced_images flags dir s1c s2c s3c datExists renderOk := rfl
  have hprod2 : (post_process_analysis flags true dir s1c s2c s3c datExists renderOk
      pngExists0).2 = generate_pdf_pages flags dir s1c s2c s3c
        (fun p => pngExists0 p ||
          (produced_images flags dir s1c s2c s3c datExists renderOk).contains p) := rfl
  -- every surviving kind's plot helper writes all its images
  have hplot_ok : ∀ k : AKind, k ≠ fk →
      plot_images (datExists (pathJoin dir (dat_file k s1c s2c s3c))) renderOk
          ((png_files k s1c s2c s3c).map (pathJoin dir)) =
        (png_files k s1c s2c s3c).map (pathJoin dir) := by
    intro k hk
    rw [plot_images, if_pos (hdat _), takeWhile_of_all_true _ _ (hok k hk)]
  -- the failed kind's plot helper writes nothing
  have hplot_fail :
      plot_images (datExists (pathJoin dir (dat_file fk s1c s2c s3c))) renderOk
          ((png_files fk s1c s2c s3c).map (pathJoin dir)) = [] := by
    rw [plot_images, if_pos (hdat _), takeWhile_of_head_false _ _ hfail]
  have hmem_prod : ∀ k : AKind, requested flags k = true → k ≠ fk →
      ∀ p ∈ (png_files k s1c s2c s3c).map (pathJoin dir),
        p ∈ produced_images flags dir s1c s2c s3c datExists renderOk := by
    intro k hreq hk p hp
    refine mem_produced_images.mpr ⟨k, hreq, ?_⟩
    rw [hplot_ok k hk]
    exact hp
  have hnot_prod : ∀ p ∈ (png_files fk s1c s2c s3c).map (pathJoin dir),
      p ∉ produced_images flags dir s1c s2c s3c datExists renderOk := by
    intro p hp hmem
    obtain ⟨k, hreq, hpk⟩ := mem_produced_images.mp hmem
    by_cases hk : k = fk
    · rw [hk, hplot_fail] at hpk
      exact absurd hpk (List.not_mem_nil p)
    · have hin : p ∈ (png_files k s1c s2c s3c).map (pathJoin dir) := by
        rw [hplot_ok k hk] at hpk
        exact hpk
      exact hdisj k hk p hin hp
  refine ⟨?_, ?_, ?_, ?_⟩
  · intro k hreq hk p hp
    rw [hprod1]
    exact hmem_prod k hreq hk p hp
  · intro p hp
    rw [hprod1]
    exact hnot_prod p hp
  · intro k hreq hk p hp
    rw [hprod2]
    refine mem_generate_pdf_pages.mpr ⟨k, hreq, List.mem_filter.mpr ⟨hp, ?_⟩⟩
    have hmem := hmem_prod k hreq hk p hp
    simp [hpng0, hmem]
  · intro p hp hmem
    rw [hprod2] at hmem
    obtain ⟨k, hreq, hpk⟩ := mem_generate_pdf_pages.mp hmem
    obtain ⟨hin, hext⟩ := List.mem_filter.mp hpk
    by_cases hk : k = fk
    · have : p ∈ produced_images flags dir s1c s2c s3c datExists renderOk := by
        simp [hpng0] at hext
        exact hext
      exact hnot_prod p hp this
    · exact hdisj k hk p hin hp

/-- Witness for C1: three requested kinds (RMSD, RMSF, Rgyr); rendering
fails for RMSF only; the RMSD and Rgyr plots are produced and paged, the
RMSF plot and page are not. -/
theorem C1_post_processing_failure_isolated_witness :
    "d/RMSD_A.png" ∈ (post_process_analysis ⟨true, true, true, false, false, false, false⟩
        true "d" "A" "B" "C" (fun _ => true)
        (fun p => !(p == "d/RMSF_A.png")) (fun _ => false)).1 ∧
    "d/RMSF_A.png" ∉ (post_process_analysis ⟨true, true, true, false, false, false, false⟩
        true "d" "A" "B" "C" (fun _ => true)
        (fun p => !(p == "d/RMSF_A.png")) (fun _ => false)).1 ∧
    "d/RGYR_A.png" ∈ (post_process_analysis ⟨true, true, true, false, false, false, false⟩
        true "d" "A" "B" "C" (fun _ => true)
        (fun p => !(p == "d/RMSF_A.png")) (fun _ => false)).2 ∧
    "d/RMSF_A.png" ∉ (post_process_analysis ⟨true, true, true, false, false, false, false⟩
        true "d" "A" "B" "C" (fun _ => true)
        (fun p => !(p == "d/RMSF_A.png")) (fun _ => false)).2 := by
  have h := C1_post_processing_failure_isolated
    ⟨true, true, true, false, false, false, false⟩ "d" "A" "B" "C" AKind.rmsf
    (fun _ => true) (fun p => !(p == "d/RMSF_A.png")) (fun _ => false)
    (fun _ => rfl) (fun _ => rfl) (by decide)
    (by
      intro k hk
      cases k
      all_goals first
        | exact absurd rfl hk
        | decide)
    (by
      intro k hk
      cases k
      all_goals first
        | exact absurd rfl hk
        | decide)
  exact ⟨h.1 AKind.rmsd rfl (by decide) _ (by decide),
    h.2.1 _ (by decide),
    h.2.2.1 AKind.rgyr rfl (by decide) _ (by decide),
    h.2.2.2 _ (by decide)⟩

end SirahTools
